import Mathlib

/-!
Verification of the Meeting Summarizer popup client (`popup.js`).

Shallow embedding conventions:
* a JavaScript string is a `List ℕ` of its UTF-16 code units (for the
  credential/obfuscation layer) or a Lean `String` (for URLs, messages and
  other plain-ASCII data);
* `btoa`/`atob` (platform base64) are embedded as executable base64
  encode/decode over code-unit lists; `btoa` fails (`none`) on any code unit
  above 255, exactly as the platform function throws there;
* fallible platform calls (`fetch`, `JSON.parse`) are represented by
  outcome-typed inputs to the embedded control flow, so the embedded
  functions are pure and total.
-/

namespace MeetingSummarizer

-- ═══════════ Config (popup.js lines 21-34) ═══════════

def MAX_FILE_SIZE : ℕ := 2 * 1024 * 1024 * 1024

def INLINE_DATA_LIMIT : ℕ := 20 * 1024 * 1024

def ACCEPTED_EXTENSIONS : List String := [".mp3", ".wav", ".m4a", ".webm", ".ogg"]

def GEMINI_API_BASE : String := "https://generativelanguage.googleapis.com/v1beta"

def GEMINI_UPLOAD_BASE : String := "https://generativelanguage.googleapis.com/upload/v1beta"

def GEMINI_MODEL : String := "gemini-2.0-flash"

def MAX_HISTORY : ℕ := 50

def CHUNK_DURATION_SEC : ℕ := 900

/-- UTF-16 code units of the fixed XOR salt string of `Config.XOR_SALT`,
`ms2024xk`. -/
def XOR_SALT : List ℕ := [109, 115, 50, 48, 50, 52, 120, 107]

-- ═══════════ Platform base64 (`btoa` / `atob`) ═══════════

/-- ASCII codes of the base64 alphabet `A-Z a-z 0-9 + /`, in value order. -/
def b64Table : List ℕ :=
  ((List.range 26).map (· + 65)) ++ ((List.range 26).map (· + 97)) ++
    ((List.range 10).map (· + 48)) ++ [43, 47]

/-- ASCII code of the base64 digit of a 6-bit value. -/
def b64Char (v : ℕ) : ℕ := b64Table.getD v 0

/-- Value of a base64 digit given by ASCII code; `none` when the code is not
in the alphabet (for example the padding mark `=`, code 61). -/
def b64CharVal (c : ℕ) : Option ℕ :=
  let i := b64Table.indexOf c
  if i < 64 then some i else none

/-- Base64 encoding of a byte list, as ASCII codes, with `=` padding. -/
def b64encode : List ℕ → List ℕ
  | [] => []
  | [a] => [b64Char (a / 4), b64Char (a % 4 * 16), 61, 61]
  | [a, b] => [b64Char (a / 4), b64Char (a % 4 * 16 + b / 16), b64Char (b % 16 * 4), 61]
  | a :: b :: c :: rest =>
      b64Char (a / 4) :: b64Char (a % 4 * 16 + b / 16) ::
        b64Char (b % 16 * 4 + c / 64) :: b64Char (c % 64) :: b64encode rest

/-- Base64 decoding of a padded base64 string given as ASCII codes; `none` on
malformed input (the embedding of the throwing behaviour of `atob`; the
whitespace/omitted-padding leniencies of the platform decoder are not
exercised by any property below, which only decodes `btoa` output). -/
def b64decode : List ℕ → Option (List ℕ)
  | [] => some []
  | w :: x :: y :: z :: rest =>
    match b64CharVal w, b64CharVal x with
    | some a, some b =>
      if y = 61 then
        if z = 61 ∧ rest = [] then some [a * 4 + b / 16] else none
      else
        match b64CharVal y with
        | some c =>
          if z = 61 then
            if rest = [] then some [a * 4 + b / 16, b % 16 * 16 + c / 4] else none
          else
            match b64CharVal z, b64decode rest with
            | some d, some tail =>
                some ((a * 4 + b / 16) :: (b % 16 * 16 + c / 4) :: (c % 4 * 64 + d) :: tail)
            | _, _ => none
        | none => none
    | _, _ => none
  | _ => none

/-- Embedding of `btoa`: defined only when every code unit is a byte (< 256); the platform
function throws an `InvalidCharacterError` otherwise. -/
def btoa (l : List ℕ) : Option (List ℕ) :=
  if l.all (· < 256) then some (b64encode l) else none

/-- Embedding of `atob`: base64 decode, `none` where the platform function throws. -/
def atob (l : List ℕ) : Option (List ℕ) := b64decode l

-- ═══════════ Crypto (popup.js lines 97-115) ═══════════

/-- The XOR loop shared by `Crypto.xorEncrypt` and `Crypto.xorDecrypt`:
code unit `i` is XORed with salt code unit `i % salt.length`. -/
def xorWith (text salt : List ℕ) : List ℕ :=
  text.mapIdx (fun i c => c ^^^ salt.getD (i % salt.length) 0)

/-- Embedding of `Crypto.xorEncrypt(text, salt)`: XOR then `btoa`; `none` where the source
throws (inside `btoa`, on a non-byte code unit). -/
def xorEncrypt (text salt : List ℕ) : Option (List ℕ) :=
  btoa (xorWith text salt)

/-- Embedding of `Crypto.xorDecrypt(encoded, salt)`: `atob` then XOR; the source catches
any `atob` error and returns the empty string. -/
def xorDecrypt (encoded salt : List ℕ) : List ℕ :=
  match atob encoded with
  | none => []
  | some decoded => xorWith decoded salt

-- ═══════════ Base64 round-trip lemmas ═══════════

theorem b64CharVal_b64Char : ∀ v, v < 64 → b64CharVal (b64Char v) = some v := by decide

theorem b64Char_ne_61 : ∀ v, v < 64 → b64Char v ≠ 61 := by decide

theorem b64decode_b64encode : ∀ l : List ℕ, (∀ b ∈ l, b < 256) → b64decode (b64encode l) = some l
  | [], _ => rfl
  | [a], h => by
    have ha : a < 256 := h a (by simp)
    have h1 := b64CharVal_b64Char (a / 4) (by omega)
    have h2 := b64CharVal_b64Char (a % 4 * 16) (by omega)
    simp [b64encode, b64decode, h1, h2]
    omega
  | [a, b], h => by
    have ha : a < 256 := h a (by simp)
    have hb : b < 256 := h b (by simp)
    have h1 := b64CharVal_b64Char (a / 4) (by omega)
    have h2 := b64CharVal_b64Char (a % 4 * 16 + b / 16) (by omega)
    have h3 := b64CharVal_b64Char (b % 16 * 4) (by omega)
    have hy := b64Char_ne_61 (b % 16 * 4) (by omega)
    simp [b64encode, b64decode, h1, h2, h3, hy]
    omega
  | a :: b :: c :: rest, h => by
    have ha : a < 256 := h a (by simp)
    have hb : b < 256 := h b (by simp)
    have hc : c < 256 := h c (by simp)
    have ih := b64decode_b64encode rest (fun x hx => h x (by simp [hx]))
    have h1 := b64CharVal_b64Char (a / 4) (by omega)
    have h2 := b64CharVal_b64Char (a % 4 * 16 + b / 16) (by omega)
    have h3 := b64CharVal_b64Char (b % 16 * 4 + c / 64) (by omega)
    have h4 := b64CharVal_b64Char (c % 64) (by omega)
    have hy := b64Char_ne_61 (b % 16 * 4 + c / 64) (by omega)
    have hz := b64Char_ne_61 (c % 64) (by omega)
    simp [b64encode, b64decode, h1, h2, h3, h4, hy, hz, ih]
    omega

-- ═══════════ XOR lemmas ═══════════

theorem xorWith_xorWith (t s : List ℕ) : xorWith (xorWith t s) s = t := by
  apply List.ext_getElem
  · simp [xorWith]
  · intro i h1 h2
    simp [xorWith, Nat.xor_cancel_right]

theorem getD_lt_of_forall (s : List ℕ) (j : ℕ) (hs : ∀ c ∈ s, c < 256) : s.getD j 0 < 256 := by
  cases h : s[j]? with
  | none => simp [List.getD, h]
  | some v =>
    have hv : v ∈ s := List.getElem?_mem h
    simpa [List.getD, h] using hs v hv

theorem xorWith_lt (t s : List ℕ) (ht : ∀ c ∈ t, c < 256) (hs : ∀ c ∈ s, c < 256) :
    ∀ c ∈ xorWith t s, c < 256 := by
  intro c hc
  rw [List.mem_iff_getElem] at hc
  obtain ⟨i, hi, rfl⟩ := hc
  have hit : i < t.length := by simpa [xorWith] using hi
  simp only [xorWith, List.getElem_mapIdx]
  exact Nat.xor_lt_two_pow (n := 8) (ht _ (List.getElem_mem hit)) (getD_lt_of_forall s _ hs)

theorem xor_salt_lt : ∀ c ∈ XOR_SALT, c < 256 := by decide

-- ═══════════ C1 ═══════════

/-- Helper: the round-trip fact, shared by the credential migration proofs. -/
theorem xor_roundtrip_aux (text : List ℕ) (h : ∀ c ∈ text, c < 256) :
    ∃ enc, xorEncrypt text XOR_SALT = some enc ∧ xorDecrypt enc XOR_SALT = text := by
  have hx : ∀ c ∈ xorWith text XOR_SALT, c < 256 := xorWith_lt _ _ h xor_salt_lt
  have hall : (xorWith text XOR_SALT).all (fun c => decide (c < 256)) = true := by
    rw [List.all_eq_true]
    intro c hc
    simpa using hx c hc
  refine ⟨b64encode (xorWith text XOR_SALT), ?_, ?_⟩
  · simp [xorEncrypt, btoa, hall]
  · simp [xorDecrypt, atob, b64decode_b64encode _ hx, xorWith_xorWith]

/-- C1 (amended): for every string whose UTF-16 code units are all below 256
(every Latin-1 string, hence every real credential), `xorEncrypt` under the
fixed salt succeeds and `xorDecrypt` of its output returns the original
string. (The original claim additionally asserted `xorEncrypt` is total on
all strings, which is false: see the counterexample.) -/
theorem c1_xor_roundtrip (text : List ℕ) (h : ∀ c ∈ text, c < 256) :
    ∃ enc, xorEncrypt text XOR_SALT = some enc ∧ xorDecrypt enc XOR_SALT = text :=
  xor_roundtrip_aux text h

/-- Witness for C1 at the concrete code-unit string `AIzaTest`. -/
theorem c1_xor_roundtrip_witness :
    (∀ c ∈ [65, 73, 122, 97, 84, 101, 115, 116], c < 256) ∧
      ∃ enc, xorEncrypt [65, 73, 122, 97, 84, 101, 115, 116] XOR_SALT = some enc ∧
        xorDecrypt enc XOR_SALT = [65, 73, 122, 97, 84, 101, 115, 116] :=
  ⟨by decide, c1_xor_roundtrip [65, 73, 122, 97, 84, 101, 115, 116] (by decide)⟩

/-- C1 counterexample: on the one-character string `€` (code unit 8364 =
0x20AC) the XOR result 8364 ^^^ 109 = 8385 exceeds 255, so `btoa` raises and
`xorEncrypt` is undefined — the claimed totality (and hence the claimed
round-trip for every string) fails. -/
theorem c1_counterexample : xorEncrypt [8364] XOR_SALT = none := by decide

-- ═══════════ API URLs and headers (popup.js lines 489-644) ═══════════

/-- Embedding of `API._buildApiUrl(endpoint)` (line 635): the credential is
not part of the URL. -/
def buildApiUrl (endpoint : String) : String := GEMINI_API_BASE ++ "/" ++ endpoint

/-- Embedding of `API._buildHeaders()` (line 639): the credential rides in
the `x-goog-api-key` header. -/
def buildHeaders (apiKey : String) : List (String × String) :=
  [("Content-Type", "application/json"), ("x-goog-api-key", apiKey)]

/-- URL built by `FileUploader.upload` (line 495): the credential is
interpolated into the `?key=` query string of the upload URL. -/
def uploadUrl (apiKey : String) : String := GEMINI_UPLOAD_BASE ++ "/files?key=" ++ apiKey

/-- URL used by `FileUploader.waitForActive` (line 564) and by
`FileUploader.delete` (line 586); these two requests carry the credential in
the `x-goog-api-key` header and the URL depends only on the file name. -/
def fileStatusUrl (fileName : String) : String := GEMINI_API_BASE ++ "/" ++ fileName

/-- Decidable substring test on strings (for the `err.message.includes`
checks of the source). -/
def strContains (hay pat : String) : Bool :=
  hay.toList.tails.any (fun t => pat.toList.isPrefixOf t)

/-- A remote request as the source assembles it: URL plus explicit headers
(the body is irrelevant to the claims here). -/
structure HttpRequest where
  url : String
  headers : List (String × String)
deriving DecidableEq

/-- The file-upload request of `FileUploader.upload`: URL of line 495 (with
the `?key=` interpolation) and exactly the two headers set on the `xhr`
(lines 535-536) — no credential header. -/
def uploadRequest (apiKey : String) : HttpRequest :=
  ⟨uploadUrl apiKey,
   [("X-Goog-Upload-Protocol", "multipart"),
    ("Content-Type", "multipart/related; boundary=boundary123")]⟩

/-- A generate-content request (streaming or not, lines 674-685, 736-745,
811-825): URL from `_buildApiUrl`, headers from `_buildHeaders`. -/
def generateContentRequest (apiKey endpoint : String) : HttpRequest :=
  ⟨buildApiUrl endpoint, buildHeaders apiKey⟩

/-- The file-status poll request of `FileUploader.waitForActive`
(lines 564-567): key-free URL, credential in the `x-goog-api-key` header. -/
def fileStatusRequest (apiKey fileName : String) : HttpRequest :=
  ⟨fileStatusUrl fileName, [("x-goog-api-key", apiKey)]⟩

/-- The file-delete request of `FileUploader.delete` (lines 586-589):
key-free URL, credential in the `x-goog-api-key` header. -/
def fileDeleteRequest (apiKey fileName : String) : HttpRequest :=
  ⟨fileStatusUrl fileName, [("x-goog-api-key", apiKey)]⟩

/-- Endpoint string of the streaming transcription call (line 674). -/
def streamGenerateEndpoint : String :=
  "models/" ++ GEMINI_MODEL ++ ":streamGenerateContent?alt=sse"

-- ═══════════ C2 ═══════════

/-- C2: refuted on the code. Evaluated at two concrete credential values:
the generate-content, file-status and file-delete request URLs are the same
for both credentials (those three carry the credential only in the
`x-goog-api-key` header), but the file-upload URL differs and contains the
credential verbatim as a `?key=` query parameter — while the upload request
headers are credential-free. This contradicts the claim and the source
file's own header comment, which says the credential travels in a header
and not in a query parameter. -/
theorem c2_upload_url_embeds_credential :
    (generateContentRequest "AIzaSecretKeyAAA" streamGenerateEndpoint).url =
        (generateContentRequest "AIzaOtherKeyBBB" streamGenerateEndpoint).url ∧
      (fileStatusRequest "AIzaSecretKeyAAA" "files/abc123").url =
        (fileStatusRequest "AIzaOtherKeyBBB" "files/abc123").url ∧
      (fileDeleteRequest "AIzaSecretKeyAAA" "files/abc123").url =
        (fileDeleteRequest "AIzaOtherKeyBBB" "files/abc123").url ∧
      (generateContentRequest "AIzaSecretKeyAAA" streamGenerateEndpoint).headers =
        buildHeaders "AIzaSecretKeyAAA" ∧
      (uploadRequest "AIzaSecretKeyAAA").url ≠ (uploadRequest "AIzaOtherKeyBBB").url ∧
      strContains (uploadRequest "AIzaSecretKeyAAA").url "AIzaSecretKeyAAA" = true ∧
      (uploadRequest "AIzaSecretKeyAAA").headers = (uploadRequest "AIzaOtherKeyBBB").headers := by
  refine ⟨rfl, rfl, rfl, rfl, by decide, by decide, rfl⟩

-- ═══════════ Data shapes shared by the API models ═══════════

/-- An action item as produced by the summarizer (`description`, nullable
`assignee` and `deadline`). -/
structure ActionItem where
  description : String
  assignee : Option String
  deadline : Option String
deriving DecidableEq

/-- Shape of the object `JSON.parse` yields in `API.callGeminiForSummary`
(line 838): either field may be absent. -/
structure SummaryJson where
  summary : Option (List String)
  actionItems : Option (List ActionItem)
deriving DecidableEq

/-- Remote file handle returned by the File API (`data.file` with `name`,
`uri`, as used in lines 1012-1019). -/
structure RemoteFile where
  name : String
  uri : String
deriving DecidableEq

/-- Outcome of one `fetch`: either the promise rejects with the network-level
`TypeError` whose message is `Failed to fetch`, or a response arrives with
its `ok` flag, the optional server-provided `error.message` of its JSON body,
its HTTP status, and a payload (the part of the body the source reads). -/
inductive FetchOutcome (α : Type)
  | netFail
  | resp (ok : Bool) (errMsg : Option String) (status : ℕ) (payload : α)

/-- Error message thrown on a non-2xx response:
`errorData?.error?.message || HTTP <status>` (a falsy — absent or empty —
server message falls back to the status text). -/
def httpErrMsg (errMsg : Option String) (status : ℕ) : String :=
  match errMsg with
  | some m => if m = "" then "HTTP " ++ toString status else m
  | none => "HTTP " ++ toString status

-- ═══════════ C3: remote-upload path of handleSubmit (lines 1009-1092) ═══════════

/-- Observable outcome of one remote-path run of `handleSubmit`: which handle
(if any) the `finally` block passed to `FileUploader.delete`, the error
surfaced via `UI.showError` (if any), and whether the run reached
`History.save`. -/
structure RemoteRunOutcome where
  cleanup : Option String
  errorShown : Option String
  savedToHistory : Bool
deriving DecidableEq

/-- Embedding of the remote-upload branch of `handleSubmit` together with its
`try/catch/finally` (popup.js lines 1009-1092). The network steps are inputs.
`State.uploadedFileUri` starts `null` and is assigned only AFTER
`FileUploader.waitForActive` resolves (line 1016); the `finally` block
(lines 1085-1092) calls `FileUploader.delete` only when that field is set. -/
def handleSubmitRemote (upload : Except String RemoteFile)
    (poll : String → Except String RemoteFile)
    (transcribe : String → Except String String)
    (summarize : String → Except String SummaryJson) : RemoteRunOutcome :=
  match upload with
  | .error e => ⟨none, some e, false⟩
  | .ok fileData =>
    match poll fileData.name with
    | .error e => ⟨none, some e, false⟩
    | .ok activeFile =>
      match transcribe activeFile.uri with
      | .error e => ⟨some activeFile.name, some e, false⟩
      | .ok t =>
        match summarize t with
        | .error e => ⟨some activeFile.name, some e, false⟩
        | .ok _ => ⟨some activeFile.name, none, true⟩

/-- C3: refuted on the code. In a run where the upload succeeds and allocates
the remote handle `files/abc123` but the readiness poll fails (here: with the
timeout error of `FileUploader.waitForActive`), the `finally` block performs
NO cleanup call — `State.uploadedFileUri` is assigned only after the poll
resolves, so it is still `null` — even though a remote handle was allocated.
The error is still surfaced. -/
theorem c3_no_cleanup_when_poll_fails :
    (handleSubmitRemote
        (.ok ⟨"files/abc123", "https://generativelanguage.googleapis.com/v1beta/files/abc123"⟩)
        (fun _ => .error "Timeout waiting for file processing.")
        (fun _ => .ok "transcript") (fun _ => .ok ⟨none, none⟩)) =
      ⟨none, some "Timeout waiting for file processing.", false⟩ := rfl

-- ═══════════ C4: transcription (popup.js lines 650-752) ═══════════

/-- The network-class test of the catch in `API.callGeminiForTranscription`
(line 728): `err.message.includes` of `Failed to fetch` or `NetworkError`. -/
def isNetworkClassMsg (m : String) : Bool :=
  strContains m "Failed to fetch" || strContains m "NetworkError"

/-- Embedding of `API._callGeminiNonStreaming` (lines 735-752). The payload
is the extracted `candidates[0].content.parts[0].text` of the JSON body
(`none` when absent). On a 2xx response it returns the trimmed text, or the
empty string when no text was extracted, without raising. -/
def callGeminiNonStreaming (f : FetchOutcome (Option String)) : Except String String :=
  match f with
  | .netFail => .error "Failed to fetch"
  | .resp ok errMsg status text =>
    if ok then .ok ((text.map String.trim).getD "")
    else .error (httpErrMsg errMsg status)

/-- Embedding of `API.callGeminiForTranscription` (lines 650-733). The
streaming payload is the list of text deltas extracted from the parsed SSE
`data:` events (malformed events contribute nothing, as in the source); the
accumulated `fullText` is their concatenation. An empty accumulation throws
inside the `try`; the catch falls back to `callGeminiNonStreaming` exactly
when the caught message is network-class, and otherwise rethrows with the
`Transcription failed:` prefix. -/
def callGeminiForTranscription (stream : FetchOutcome (List String))
    (fallback : FetchOutcome (Option String)) : Except String String :=
  let attempt : Except String String :=
    match stream with
    | .netFail => .error "Failed to fetch"
    | .resp ok errMsg status events =>
      if ok then
        let fullText := String.join events
        if fullText = "" then .error "Không nhận được transcript từ Gemini."
        else .ok fullText.trim
      else .error (httpErrMsg errMsg status)
  match attempt with
  | .ok t => .ok t
  | .error m =>
    if isNetworkClassMsg m then callGeminiNonStreaming fallback
    else .error ("Transcription failed: " ++ m)

/-- C4 (amended): on the streaming path an empty accumulated transcript is a
failure — the run ends in the distinct rethrown error, never an empty
success — but the one-time non-streaming fallback taken on a network-class
failure returns SUCCESS with the empty string when no text was extracted
(the original claim asserted the empty-is-failure rule for the fallback too,
which is false: see the counterexample). -/
theorem c4_empty_transcript (em : Option String) (st : ℕ) (events : List String)
    (fallback : FetchOutcome (Option String)) (hempty : String.join events = "") :
    callGeminiForTranscription (.resp true em st events) fallback =
        .error "Transcription failed: Không nhận được transcript từ Gemini." ∧
      ∀ (em2 : Option String) (st2 : ℕ),
        callGeminiNonStreaming (.resp true em2 st2 none) = .ok "" := by
  constructor
  · have hnc : isNetworkClassMsg "Không nhận được transcript từ Gemini." = false := by decide
    simp [callGeminiForTranscription, hempty, hnc]
  · intro em2 st2
    simp [callGeminiNonStreaming]

/-- Witness for C4 at a concrete empty SSE stream. -/
theorem c4_empty_transcript_witness :
    callGeminiForTranscription (.resp true none 200 []) .netFail =
        .error "Transcription failed: Không nhận được transcript từ Gemini." ∧
      ∀ (em2 : Option String) (st2 : ℕ),
        callGeminiNonStreaming (.resp true em2 st2 none) = .ok "" :=
  c4_empty_transcript none 200 [] .netFail rfl

/-- C4 counterexample: when the streaming fetch fails with the network-class
`Failed to fetch` error and the non-streaming fallback returns a 2xx response
whose body contains no extracted text, the transcription call returns a
SUCCESSFUL empty transcript — contradicting the claim that an empty extracted
text always yields a failure. -/
theorem c4_counterexample :
    callGeminiForTranscription .netFail (.resp true none 200 none) = .ok "" := by
  have hnc : isNetworkClassMsg "Failed to fetch" = true := by decide
  simp [callGeminiForTranscription, callGeminiNonStreaming, hnc]

-- ═══════════ C7: summary parsing (popup.js lines 756-843, 1055-1057) ═══════════

/-- ASCII members of the regex class `\s` used by the fence-stripping and by
`String.prototype.trim` (the additional Unicode space code points JS also
matches are irrelevant to the properties below). -/
def jsSpace (c : Char) : Bool :=
  c = ' ' || c = '\t' || c = '\n' || c = '\r' || c = '\x0b' || c = '\x0c'

def fenceJson : List Char := "```json".toList

def fenceBare : List Char := "```".toList

/-- Fuel-indexed scan of the global regex replace
`text.replace(fence-json-or-bare-with-trailing-spaces, empty)` of line 837:
at each position the `json` alternative is preferred, a match and its
trailing whitespace are dropped, and scanning resumes after the match. The
fuel (initially the text length) strictly dominates the list length, so the
zero-fuel case is unreachable. -/
def stripFencesAux : ℕ → List Char → List Char
  | 0, l => l
  | fuel + 1, l =>
    match l with
    | [] => []
    | c :: cs =>
      if fenceJson.isPrefixOf (c :: cs) then
        stripFencesAux fuel (((c :: cs).drop 7).dropWhile jsSpace)
      else if fenceBare.isPrefixOf (c :: cs) then
        stripFencesAux fuel (((c :: cs).drop 3).dropWhile jsSpace)
      else c :: stripFencesAux fuel cs

def stripFences (s : String) : String := ⟨stripFencesAux s.length s.toList⟩

/-- Embedding of `String.prototype.trim`. -/
def trimJs (s : String) : String :=
  ⟨(((s.toList.dropWhile jsSpace).reverse.dropWhile jsSpace).reverse)⟩

/-- Embedding of `API.callGeminiForSummary` (lines 756-843). The wire call
carries the prompt; what the claims constrain is the response handling, so
the payload is the extracted response text and `JSON.parse` is the
`parseJson` input (the platform parser, opaque to this model). A falsy
(absent or empty) text throws the distinct no-summary error; otherwise the
text is fence-stripped, trimmed and handed to the parser; a parse failure
throws the distinct could-not-interpret error. -/
def callGeminiForSummary (parseJson : String → Option SummaryJson)
    (f : FetchOutcome (Option String)) : Except String SummaryJson :=
  match f with
  | .netFail => .error "Failed to fetch"
  | .resp ok errMsg status text =>
    if ok then
      match text with
      | none => .error "Không nhận được tóm tắt từ Gemini."
      | some t =>
        if t = "" then .error "Không nhận được tóm tắt từ Gemini."
        else
          match parseJson (trimJs (stripFences t)) with
          | none => .error "Không thể phân tích kết quả tóm tắt. Vui lòng thử lại."
          | some j => .ok j
    else .error (httpErrMsg errMsg status)

/-- Embedding of the summary defaults of `handleSubmit` (lines 1056-1057):
`summaryResult.summary || empty-list` and likewise for `actionItems`. -/
def applySummaryDefaults (j : SummaryJson) : List String × List ActionItem :=
  (j.summary.getD [], j.actionItems.getD [])

/-- C7: for every non-empty summarization response text, the parser is
applied to the fence-stripped, trimmed text; a parse failure yields the
distinct could-not-interpret error (never a silent empty success); a parse
success is returned as-is, and in the stored result each of the two fields
independently defaults to the empty list exactly when it is missing, and is
kept verbatim when present. -/
theorem c7_summary_parsing (parseJson : String → Option SummaryJson) (t : String)
    (em : Option String) (st : ℕ) :
    (t ≠ "" → parseJson (trimJs (stripFences t)) = none →
      callGeminiForSummary parseJson (.resp true em st (some t)) =
        .error "Không thể phân tích kết quả tóm tắt. Vui lòng thử lại.") ∧
    (∀ j, t ≠ "" → parseJson (trimJs (stripFences t)) = some j →
      callGeminiForSummary parseJson (.resp true em st (some t)) = .ok j ∧
      (j.summary = none → (applySummaryDefaults j).1 = []) ∧
      (∀ l, j.summary = some l → (applySummaryDefaults j).1 = l) ∧
      (j.actionItems = none → (applySummaryDefaults j).2 = []) ∧
      (∀ a, j.actionItems = some a → (applySummaryDefaults j).2 = a)) := by
  refine ⟨fun ht hp => ?_,
    fun j ht hp => ⟨?_, fun hs => ?_, fun l hs => ?_, fun ha => ?_, fun a ha => ?_⟩⟩
  · simp [callGeminiForSummary, ht, hp]
  · simp [callGeminiForSummary, ht, hp]
  · simp [applySummaryDefaults, hs]
  · simp [applySummaryDefaults, hs]
  · simp [applySummaryDefaults, ha]
  · simp [applySummaryDefaults, ha]

/-- Witness for C7: a concrete fenced text with the always-failing parser,
and two parsers each returning an object with exactly one field missing —
the missing field defaults to the empty list, the present one is kept. -/
theorem c7_summary_parsing_witness :
    callGeminiForSummary (fun _ => none) (.resp true none 200 (some "```json x")) =
        .error "Không thể phân tích kết quả tóm tắt. Vui lòng thử lại." ∧
      (callGeminiForSummary (fun _ => some ⟨none, some [⟨"task", none, none⟩]⟩)
          (.resp true none 200 (some "```json x")) = .ok ⟨none, some [⟨"task", none, none⟩]⟩ ∧
        (applySummaryDefaults ⟨none, some [⟨"task", none, none⟩]⟩).1 = [] ∧
        (applySummaryDefaults ⟨none, some [⟨"task", none, none⟩]⟩).2 = [⟨"task", none, none⟩]) ∧
      (callGeminiForSummary (fun _ => some ⟨some ["point"], none⟩)
          (.resp true none 200 (some "```json x")) = .ok ⟨some ["point"], none⟩ ∧
        (applySummaryDefaults ⟨some ["point"], none⟩).1 = ["point"] ∧
        (applySummaryDefaults ⟨some ["point"], none⟩).2 = []) := by
  have h1 := (c7_summary_parsing (fun _ => some ⟨none, some [⟨"task", none, none⟩]⟩)
      "```json x" none 200).2 ⟨none, some [⟨"task", none, none⟩]⟩ (by decide) rfl
  have h2 := (c7_summary_parsing (fun _ => some ⟨some ["point"], none⟩)
      "```json x" none 200).2 ⟨some ["point"], none⟩ (by decide) rfl
  refine ⟨(c7_summary_parsing (fun _ => none) "```json x" none 200).1 (by decide) rfl,
    ⟨h1.1, h1.2.1 rfl, h1.2.2.2.2 _ rfl⟩, ⟨h2.1, h2.2.2.1 _ rfl, h2.2.2.2.1 rfl⟩⟩

-- ═══════════ AudioChunker (popup.js lines 597-622) ═══════════

/-- A `File`/`Blob`: name, MIME type and byte content; `size` is the byte
length. Durations are separate (probed via the audio element) and carried as
rationals, the exact model of the float arithmetic here (all the divisions
below stay far from the precision of binary64). -/
structure JsFile where
  name : String
  type : String
  content : List ℕ
deriving DecidableEq

def JsFile.size (f : JsFile) : ℕ := f.content.length

/-- Embedding of `Blob.slice(start, end)`: the bytes of the clamped range. -/
def sliceFile (f : JsFile) (s e : ℕ) : List ℕ := (f.content.take e).drop s

/-- Embedding of `AudioChunker.shouldChunk(durationSec)` (line 598): the JS
expression `durationSec && durationSec > threshold` — a missing (`null`/`NaN`)
or zero duration is falsy. -/
def shouldChunk (duration : Option ℚ) : Bool :=
  match duration with
  | none => false
  | some d => if d = 0 then false else decide ((CHUNK_DURATION_SEC : ℚ) < d)

/-- Chunk count of `AudioChunker.splitFile`:
`Math.ceil(durationSec / CHUNK_DURATION_SEC)` (line 608). -/
def numChunksFor (d : ℚ) : ℕ := (⌈d / (CHUNK_DURATION_SEC : ℚ)⌉).toNat

/-- Chunk size of `AudioChunker.splitFile`:
`Math.ceil(file.size / numChunks)` (line 609). -/
def chunkSizeFor (size numChunks : ℕ) : ℕ := (⌈(size : ℚ) / (numChunks : ℚ)⌉).toNat

/-- Embedding of `AudioChunker.splitFile(file, durationSec)`
(lines 607-621): `numChunks` slices `(i*chunkSize, min(i*chunkSize+chunkSize,
size))` of the file, each named `chunk_<i+1>.<parent extension>` and typed
with the parent `file.type`. -/
def splitFile (f : JsFile) (d : ℚ) : List JsFile :=
  let numChunks := numChunksFor d
  let chunkSize := chunkSizeFor f.size numChunks
  (List.range numChunks).map (fun i =>
    { name := "chunk_" ++ toString (i + 1) ++ "." ++ ((f.name.splitOn ".").getLastD ""),
      type := f.type,
      content := sliceFile f (i * chunkSize) (min (i * chunkSize + chunkSize) f.size) })

theorem slice_eq_drop_take (f : JsFile) (s cs : ℕ) :
    sliceFile f s (min (s + cs) f.size) = (f.content.drop s).take cs := by
  rw [sliceFile, List.drop_take]
  rcases le_or_lt (s + cs) f.size with h | h
  · rw [min_eq_left h]
    congr 1
    omega
  · rw [min_eq_right (le_of_lt h)]
    have hc : f.content.length = f.size := rfl
    have hlen1 : (f.content.drop s).length ≤ f.size - s := by
      simp only [List.length_drop]
      omega
    have hlen2 : (f.content.drop s).length ≤ cs := by
      simp only [List.length_drop]
      omega
    rw [List.take_of_length_le hlen1, List.take_of_length_le hlen2]

theorem join_take_chunks (l : List ℕ) (cs : ℕ) :
    ∀ n, (((List.range n).map (fun i => (l.drop (i * cs)).take cs)).flatten) = l.take (n * cs) := by
  intro n
  induction n with
  | zero => simp
  | succ n ih =>
    rw [List.range_succ, List.map_append, List.flatten_append]
    simp only [List.map_cons, List.map_nil, List.flatten_cons, List.flatten_nil,
      List.append_nil, ih]
    rw [Nat.succ_mul, List.take_add]

theorem ceil_mul_cover (size n : ℕ) (hn : 0 < n) :
    size ≤ n * chunkSizeFor size n := by
  have h1 : ((size : ℚ) / (n : ℚ)) ≤ ((⌈(size : ℚ) / (n : ℚ)⌉ : ℤ) : ℚ) := Int.le_ceil _
  have hnq : (0 : ℚ) < (n : ℚ) := by exact_mod_cast hn
  have h2 : (0 : ℤ) ≤ ⌈(size : ℚ) / (n : ℚ)⌉ :=
    Int.ceil_nonneg (div_nonneg (by positivity) (le_of_lt hnq))
  have h3 : (size : ℚ) ≤ (n : ℚ) * ((⌈(size : ℚ) / (n : ℚ)⌉ : ℤ) : ℚ) := by
    rw [div_le_iff₀ hnq] at h1
    linarith [h1]
  have hz : (size : ℤ) ≤ (n : ℤ) * ⌈(size : ℚ) / (n : ℚ)⌉ := by exact_mod_cast h3
  have hz2 : (size : ℤ) ≤ (n : ℤ) * ((⌈(size : ℚ) / (n : ℚ)⌉.toNat : ℕ) : ℤ) := by
    rwa [Int.toNat_of_nonneg h2]
  rw [chunkSizeFor]
  exact_mod_cast hz2

theorem numChunksFor_pos (d : ℚ) (h : (CHUNK_DURATION_SEC : ℚ) < d) : 0 < numChunksFor d := by
  have h0 : (0 : ℚ) < d / (CHUNK_DURATION_SEC : ℚ) := by
    apply div_pos
    · have : (0 : ℚ) < (CHUNK_DURATION_SEC : ℚ) := by norm_num [CHUNK_DURATION_SEC]
      linarith
    · norm_num [CHUNK_DURATION_SEC]
  rw [numChunksFor, Int.lt_toNat]
  exact_mod_cast Int.ceil_pos.mpr h0

-- ═══════════ C5 ═══════════

/-- C5: for positive durations `shouldChunk` decides exactly `duration >
900`; above the threshold `splitFile` produces exactly `ceil(duration/900)`
sub-files, the i-th being the contiguous byte range starting at
`i * chunkSize` of length (at most) `chunkSize`, each inheriting the parent
MIME type. -/
theorem c5_chunking (f : JsFile) (d : ℚ) (hd : 0 < d) :
    shouldChunk (some d) = decide ((CHUNK_DURATION_SEC : ℚ) < d) ∧
      (0 < f.size → (CHUNK_DURATION_SEC : ℚ) < d →
        (splitFile f d).length = (⌈d / (CHUNK_DURATION_SEC : ℚ)⌉).toNat ∧
        ∀ (i : ℕ) (h : i < (splitFile f d).length),
          ((splitFile f d).get ⟨i, h⟩).type = f.type ∧
          ((splitFile f d).get ⟨i, h⟩).content =
            (f.content.drop (i * chunkSizeFor f.size (numChunksFor d))).take
              (chunkSizeFor f.size (numChunksFor d))) := by
  constructor
  · simp [shouldChunk, ne_of_gt hd]
  · intro _ _
    constructor
    · simp [splitFile, numChunksFor]
    · intro i h
      constructor
      · simp [splitFile]
      · simp only [splitFile, List.get_eq_getElem, List.getElem_map,
          List.getElem_range]
        exact slice_eq_drop_take f _ _

/-- Witness for C5: a 2400-second five-byte file is split into
ceil(2400/900) = 3 chunks of ceiling size 2. -/
theorem c5_chunking_witness :
    shouldChunk (some 2400) = decide ((CHUNK_DURATION_SEC : ℚ) < 2400) ∧
      (0 < (⟨"meeting.mp3", "audio/mpeg", [10, 11, 12, 13, 14]⟩ : JsFile).size →
        (CHUNK_DURATION_SEC : ℚ) < 2400 →
        (splitFile ⟨"meeting.mp3", "audio/mpeg", [10, 11, 12, 13, 14]⟩ 2400).length =
            (⌈(2400 : ℚ) / (CHUNK_DURATION_SEC : ℚ)⌉).toNat ∧
        ∀ (i : ℕ)
          (h : i < (splitFile ⟨"meeting.mp3", "audio/mpeg", [10, 11, 12, 13, 14]⟩ 2400).length),
          ((splitFile ⟨"meeting.mp3", "audio/mpeg", [10, 11, 12, 13, 14]⟩ 2400).get
              ⟨i, h⟩).type = "audio/mpeg" ∧
          ((splitFile ⟨"meeting.mp3", "audio/mpeg", [10, 11, 12, 13, 14]⟩ 2400).get
              ⟨i, h⟩).content =
            (([10, 11, 12, 13, 14] : List ℕ).drop
                (i * chunkSizeFor 5 (numChunksFor 2400))).take
              (chunkSizeFor 5 (numChunksFor 2400))) :=
  c5_chunking ⟨"meeting.mp3", "audio/mpeg", [10, 11, 12, 13, 14]⟩ 2400 (by norm_num)

-- ═══════════ C10 ═══════════

/-- C10: for a file of positive size and a duration above the chunk
threshold, concatenating the contents of the sub-files of `splitFile` in list
order reproduces exactly the byte content of the original file (the ranges
are contiguous from offset 0 through the file size; trailing chunks may be
empty). -/
theorem c10_split_rejoin (f : JsFile) (d : ℚ) (hsize : 0 < f.size)
    (habove : (CHUNK_DURATION_SEC : ℚ) < d) :
    (((splitFile f d).map JsFile.content).flatten) = f.content := by
  have hn : 0 < numChunksFor d := numChunksFor_pos d habove
  have hmap : (splitFile f d).map JsFile.content =
      (List.range (numChunksFor d)).map
        (fun i => (f.content.drop (i * chunkSizeFor f.size (numChunksFor d))).take
          (chunkSizeFor f.size (numChunksFor d))) := by
    simp only [splitFile, List.map_map]
    apply List.map_congr_left
    intro i _
    exact slice_eq_drop_take f _ _
  rw [hmap, join_take_chunks]
  apply List.take_of_length_le
  calc f.content.length = f.size := rfl
    _ ≤ numChunksFor d * chunkSizeFor f.size (numChunksFor d) := ceil_mul_cover _ _ hn

/-- Witness for C10 at the same concrete five-byte 2400-second file: the
three chunks [10,11], [12,13], [14] rejoin to the original content. -/
theorem c10_split_rejoin_witness :
    (((splitFile ⟨"m.mp3", "audio/mpeg", [10, 11, 12, 13, 14]⟩ 2400).map
        JsFile.content).flatten) = [10, 11, 12, 13, 14] :=
  c10_split_rejoin ⟨"m.mp3", "audio/mpeg", [10, 11, 12, 13, 14]⟩ 2400
    (by norm_num [JsFile.size]) (by norm_num [CHUNK_DURATION_SEC])

-- ═══════════ History (popup.js lines 849-868) ═══════════

/-- A persisted history entry (`History.save` builds it with a generated id,
an ISO timestamp and the run results; id generation and the clock are outside
the embedded store, so the entry arrives fully built here). -/
structure HistoryEntry where
  id : String
  date : String
  fileName : String
  summary : List String
  actionItems : List ActionItem
  transcript : String
deriving DecidableEq

/-- Embedding of `History.save` (lines 854-867): `unshift` the new entry to
the front of the loaded list, then truncate to `MAX_HISTORY` entries by
assigning `history.length` (which keeps the first — newest — entries), then
persist the whole list. -/
def History.save (history : List HistoryEntry) (e : HistoryEntry) : List HistoryEntry :=
  let h := e :: history
  if MAX_HISTORY < h.length then h.take MAX_HISTORY else h

theorem save_length_le (h : List HistoryEntry) (e : HistoryEntry) :
    (History.save h e).length ≤ MAX_HISTORY := by
  rw [History.save]
  split
  · simp
  · simp at *
    omega

theorem take_append_take (a b : List HistoryEntry) (n : ℕ) :
    (a ++ b.take n).take n = (a ++ b).take n := by
  rw [List.take_append_eq_append_take, List.take_append_eq_append_take, List.take_take,
    min_eq_left (Nat.sub_le n a.length)]

theorem save_foldl (es : List HistoryEntry) (h : List HistoryEntry)
    (hh : h.length ≤ MAX_HISTORY) :
    es.foldl History.save h = (es.reverse ++ h).take MAX_HISTORY := by
  induction es generalizing h with
  | nil => simp [List.take_of_length_le hh]
  | cons e es ih =>
    rw [List.foldl_cons, ih (History.save h e) (save_length_le h e)]
    rw [List.reverse_cons, List.append_assoc, List.singleton_append]
    rw [History.save]
    split
    · exact take_append_take _ _ _
    · rfl

-- ═══════════ C6 ═══════════

/-- C6: every `record` keeps the history below the cap (`length ≤ 50` holds
after every save, from any prior stored list), and a sequence of `N > 50`
successful runs recorded in order leaves exactly the 50 most recent entries,
newest first (the reverse of the run sequence, truncated at the cap). -/
theorem c6_history_cap :
    (∀ (h : List HistoryEntry) (e : HistoryEntry),
      (History.save h e).length ≤ MAX_HISTORY) ∧
    (∀ es : List HistoryEntry, MAX_HISTORY < es.length →
      (es.foldl History.save []).length = MAX_HISTORY ∧
      es.foldl History.save [] = es.reverse.take MAX_HISTORY) := by
  refine ⟨save_length_le, fun es hlen => ?_⟩
  have h1 : es.foldl History.save [] = es.reverse.take MAX_HISTORY := by
    rw [save_foldl es [] (by simp [MAX_HISTORY])]
    simp
  refine ⟨?_, h1⟩
  rw [h1]
  simp only [List.length_take, List.length_reverse]
  omega

/-- Witness for C6: 51 recorded runs leave exactly the newest 50. -/
theorem c6_history_cap_witness :
    ((List.replicate 51
        ({ id := "i", date := "d", fileName := "f", summary := [],
           actionItems := [], transcript := "" } : HistoryEntry)).foldl
      History.save []).length = MAX_HISTORY ∧
    (List.replicate 51
        ({ id := "i", date := "d", fileName := "f", summary := [],
           actionItems := [], transcript := "" } : HistoryEntry)).foldl History.save [] =
      (List.replicate 51
        ({ id := "i", date := "d", fileName := "f", summary := [],
           actionItems := [], transcript := "" } : HistoryEntry)).reverse.take MAX_HISTORY :=
  c6_history_cap.2 _ (by simp [MAX_HISTORY])

-- ═══════════ File intake (popup.js lines 185-190, 931-943) ═══════════

/-- Rendering of `(q).toFixed(1)` for the nonnegative rationals reached here,
with `toFixed` rounding modeled as decimal round-half-up (the source values
never sit at a representation-dependent tie). -/
def toFixed1 (q : ℚ) : String :=
  let n := (⌊q * 10 + 1 / 2⌋).toNat
  toString (n / 10) ++ "." ++ toString (n % 10)

/-- Rendering of `(q).toFixed(2)`, as for `toFixed1`. -/
def toFixed2 (q : ℚ) : String :=
  let n := (⌊q * 100 + 1 / 2⌋).toNat
  toString (n / 100) ++ "." ++ (if n % 100 < 10 then "0" else "") ++ toString (n % 100)

/-- Embedding of `formatFileSize(bytes)` (lines 185-190): human-readable
units B / KB / MB / GB with the thresholds of the source. -/
def formatFileSize (bytes : ℕ) : String :=
  if bytes < 1024 then toString bytes ++ " B"
  else if bytes < 1024 * 1024 then toFixed1 ((bytes : ℚ) / 1024) ++ " KB"
  else if bytes < 1024 * 1024 * 1024 then toFixed1 ((bytes : ℚ) / (1024 * 1024)) ++ " MB"
  else toFixed2 ((bytes : ℚ) / (1024 * 1024 * 1024)) ++ " GB"

/-- ASCII lowering, the fragment of `String.prototype.toLowerCase` relevant
to the extension check (`handleFileSelect` only compares against the ASCII
extension list). -/
def lowerAscii (c : Char) : Char :=
  if c.toNat ≥ 65 ∧ c.toNat ≤ 90 then Char.ofNat (c.toNat + 32) else c

/-- Embedding of `split` on a literal dot, as a structural recursion over the
characters (same semantics as the JS `name.split(dot-literal)`). -/
def splitDot : List Char → List (List Char)
  | [] => [[]]
  | c :: cs =>
    match splitDot cs with
    | [] => [[]]
    | h :: t => if c = '.' then [] :: h :: t else (c :: h) :: t

/-- Extension extraction of `handleFileSelect` (line 932):
a dot plus the last `split` component of the lowercased name. -/
def fileExt (name : String) : String :=
  "." ++ ⟨(splitDot (name.toList.map lowerAscii)).getLastD []⟩

/-- Result of the validation prefix of `handleFileSelect`. -/
inductive SelectOutcome
  | rejectedExt (toast : String)
  | rejectedSize (toast : String)
  | accepted
deriving DecidableEq

/-- Embedding of the validation prefix of `handleFileSelect` (lines
931-943): extension check first, then size check; each rejection shows its
toast and returns before `State.selectedFile` is assigned. -/
def handleFileSelect (f : JsFile) : SelectOutcome :=
  if fileExt f.name ∉ ACCEPTED_EXTENSIONS then
    .rejectedExt "File không được hỗ trợ. Vui lòng chọn .mp3, .wav, .m4a, .webm, .ogg"
  else if MAX_FILE_SIZE < f.size then
    .rejectedSize ("File quá lớn (" ++ formatFileSize f.size ++ "). Tối đa 2GB.")
  else .accepted

/-- The value of `State.selectedFile` after `handleFileSelect`: assigned only
on acceptance (line 943), untouched by the early returns. -/
def selectedFileAfter (prev : Option JsFile) (f : JsFile) : Option JsFile :=
  match handleFileSelect f with
  | .accepted => some f
  | _ => prev

/-- Network requests issued by `handleFileSelect`: none — the function body
(lines 931-980) contains no `fetch`/`XMLHttpRequest`; the only asynchronous
step is the local duration probe through an audio element. -/
def handleFileSelectNetworkRequests (_f : JsFile) : List String := []

-- ═══════════ C8 ═══════════

/-- C8: a file with an accepted extension and size at most the 2GB maximum is
accepted and becomes the selected file; a bad extension is rejected with the
toast naming the accepted extensions, an oversized file with the toast
carrying its human-readable size; on rejection the selected file is
unchanged; and validation issues no network request. -/
theorem c8_validation (prev : Option JsFile) (f : JsFile) :
    (fileExt f.name ∈ ACCEPTED_EXTENSIONS → f.size ≤ MAX_FILE_SIZE →
      handleFileSelect f = .accepted ∧ selectedFileAfter prev f = some f) ∧
    (fileExt f.name ∉ ACCEPTED_EXTENSIONS →
      handleFileSelect f =
          .rejectedExt "File không được hỗ trợ. Vui lòng chọn .mp3, .wav, .m4a, .webm, .ogg" ∧
        selectedFileAfter prev f = prev) ∧
    (fileExt f.name ∈ ACCEPTED_EXTENSIONS → MAX_FILE_SIZE < f.size →
      handleFileSelect f =
          .rejectedSize ("File quá lớn (" ++ formatFileSize f.size ++ "). Tối đa 2GB.") ∧
        selectedFileAfter prev f = prev) ∧
    handleFileSelectNetworkRequests f = [] := by
  refine ⟨fun hext hsz => ?_, fun hext => ?_, fun hext hsz => ?_, rfl⟩
  · have h : handleFileSelect f = .accepted := by
      simp [handleFileSelect, hext, Nat.not_lt.mpr hsz]
    exact ⟨h, by simp [selectedFileAfter, h]⟩
  · have h : handleFileSelect f =
        .rejectedExt "File không được hỗ trợ. Vui lòng chọn .mp3, .wav, .m4a, .webm, .ogg" := by
      simp [handleFileSelect, hext]
    exact ⟨h, by simp [selectedFileAfter, h]⟩
  · have h : handleFileSelect f =
        .rejectedSize ("File quá lớn (" ++ formatFileSize f.size ++ "). Tối đa 2GB.") := by
      simp [handleFileSelect, hext, hsz]
    exact ⟨h, by simp [selectedFileAfter, h]⟩

/-- Witness for C8: an accepted `.mp3` file of one byte is selected; an
oversized `.mp3` file and a `.txt` file are rejected with their toasts and
leave the selection untouched. -/
theorem c8_validation_witness :
    (handleFileSelect ⟨"Meeting.MP3", "audio/mpeg", [0]⟩ = .accepted ∧
      selectedFileAfter none ⟨"Meeting.MP3", "audio/mpeg", [0]⟩ =
        some ⟨"Meeting.MP3", "audio/mpeg", [0]⟩) ∧
    (handleFileSelect ⟨"notes.txt", "text/plain", [0]⟩ =
        .rejectedExt "File không được hỗ trợ. Vui lòng chọn .mp3, .wav, .m4a, .webm, .ogg" ∧
      selectedFileAfter none ⟨"notes.txt", "text/plain", [0]⟩ = none) :=
  ⟨(c8_validation none ⟨"Meeting.MP3", "audio/mpeg", [0]⟩).1 (by decide) (by decide),
   (c8_validation none ⟨"notes.txt", "text/plain", [0]⟩).2.1 (by decide)⟩

-- ═══════════ C9: credential migration in init (popup.js lines 1169-1183) ═══════════

/-- The two storage keys consulted by `init`: `gemini_api_key_enc`
(obfuscated) and the legacy plaintext `gemini_api_key`. Values are strings of
UTF-16 code units. -/
structure CredentialStore where
  enc : Option (List ℕ)
  legacy : Option (List ℕ)
deriving DecidableEq

/-- Observable outcome of the credential-restore block of `init`: the
storage after it ran, the value placed into the key input field, whether the
legacy key was read, and whether the block threw (an uncaught `btoa` error
aborts `init` before the writes). -/
structure InitOutcome where
  store : CredentialStore
  apiKeyField : Option (List ℕ)
  legacyConsulted : Bool
  threw : Bool
deriving DecidableEq

/-- Embedding of the credential-restore block of `init` (lines 1169-1183):
if the obfuscated key is present, decrypt it into the field and stop (the
legacy key is never read and storage is untouched); otherwise read the
legacy key and, when present, put it in the field, store its encryption
under the obfuscated key and remove the legacy key — unless `xorEncrypt`
throws, in which case `init` aborts with storage unmodified. -/
def initMigrateCredential (st : CredentialStore) : InitOutcome :=
  match st.enc with
  | some e => ⟨st, some (xorDecrypt e XOR_SALT), false, false⟩
  | none =>
    match st.legacy with
    | none => ⟨st, none, true, false⟩
    | some v =>
      match xorEncrypt v XOR_SALT with
      | none => ⟨st, some v, true, true⟩
      | some enc => ⟨⟨some enc, none⟩, some v, true, false⟩

/-- C9 (amended): when the obfuscated key is absent and the legacy key holds
a value `v` all of whose code units are below 256 (every real credential),
`init` loads `v` into the field, stores `encode(v, K)` under the obfuscated
key and removes the legacy key; when the obfuscated key is present, the
legacy key is not consulted and storage is not modified. (The original
claim, quantifying over every stored value `v`, fails for non-Latin-1
values, where `xorEncrypt` throws and storage is left untouched: see the
counterexample.) -/
theorem c9_credential_migration (st : CredentialStore) :
    (∀ v, st.enc = none → st.legacy = some v → (∀ c ∈ v, c < 256) →
      ∃ enc, xorEncrypt v XOR_SALT = some enc ∧
        initMigrateCredential st = ⟨⟨some enc, none⟩, some v, true, false⟩) ∧
    (∀ e, st.enc = some e →
      (initMigrateCredential st).store = st ∧
      (initMigrateCredential st).legacyConsulted = false) := by
  constructor
  · intro v henc hleg hv
    obtain ⟨enc, hxe, _⟩ := xor_roundtrip_aux v hv
    refine ⟨enc, hxe, ?_⟩
    simp [initMigrateCredential, henc, hleg, hxe]
  · intro e henc
    simp [initMigrateCredential, henc]

/-- Witness for C9: the legacy credential `a` (code 97) is migrated — the
obfuscated key is written and the legacy key removed — and a store that
already holds an obfuscated value is left unmodified with the legacy key
unread. -/
theorem c9_credential_migration_witness :
    (∃ enc, xorEncrypt [97] XOR_SALT = some enc ∧
      initMigrateCredential ⟨none, some [97]⟩ = ⟨⟨some enc, none⟩, some [97], true, false⟩) ∧
    ((initMigrateCredential ⟨some [77], none⟩).store = ⟨some [77], none⟩ ∧
      (initMigrateCredential ⟨some [77], none⟩).legacyConsulted = false) :=
  ⟨(c9_credential_migration ⟨none, some [97]⟩).1 [97] rfl rfl (by decide),
   (c9_credential_migration ⟨some [77], none⟩).2 [77] rfl⟩

/-- C9 counterexample: with the obfuscated key absent and the legacy key
holding the non-Latin-1 value `€` (code unit 8364), `xorEncrypt` throws, so
the claimed re-save does not happen and the legacy key is NOT removed: the
store is left unchanged and the block aborts. -/
theorem c9_counterexample :
    initMigrateCredential ⟨none, some [8364]⟩ =
      ⟨⟨none, some [8364]⟩, some [8364], true, true⟩ := by decide

end MeetingSummarizer
